import Mathlib

/-!
Verification development for the kitties-app contract-call hook layer.

The TypeScript hooks are shallowly embedded as Lean functions:

* JavaScript decimal strings of nonnegative integers are embedded as their
  big-endian digit lists (`decStr`), string concatenation as list append, and
  `BigNumber.from` on a digit string as `Nat.ofDigits 10` of the reversed list
  (`BigNumber.from ""` throws, hence the `Option`).
* React hooks are embedded as pure functions of their inputs; the external SDK
  reads (`useCall`) are passed in as an oracle function, and effects (toast
  commands, `resetState` calls, `send` calls) are returned as data.
-/

namespace Kitties

/-- DNA record, modelled from the spec: an ordered record of named
integer-like trait fields; `Object.values` iterates the fields in declared
order, so a record is embedded as the ordered list of its field values. -/
def DNA := List Nat

/-- Decimal string of a natural number, embedded as the big-endian list of its
digits; `String(0)` is `"0"`, i.e. `[0]`. -/
def decStr (n : Nat) : List Nat :=
  if n = 0 then [0] else (Nat.digits 10 n).reverse

/-- `convertDnaToGenes`: start from the empty string, append each DNA field
value's decimal string in declared field order, and parse the result with
`BigNumber.from` (which throws on the empty string, hence `Option`). -/
def convertDnaToGenes (dna : List Nat) : Option Nat :=
  let genes := dna.foldl (fun genes dnaValue => genes ++ decStr dnaValue) []
  if genes = [] then none
  else some (Nat.ofDigits 10 genes.reverse)

/-- `useDnaToGenes` memoizes `convertDnaToGenes`; the value is the same. -/
def useDnaToGenes (dna : List Nat) : Option Nat :=
  convertDnaToGenes dna

/-- The two chain identifiers recognized by the app (usedapp numbering). -/
def ChainIdPolygon : Nat := 137

/-- Mumbai test-network chain identifier (usedapp numbering). -/
def ChainIdMumbai : Nat := 80001

/-- `useChainId`: switch on the connected chain id (`none` = not connected);
the `Mumbai` and `Polygon` cases return the id itself, the default case
returns `Mumbai`. -/
def useChainId (chainId : Option Nat) : Nat :=
  if chainId = some ChainIdMumbai then ChainIdMumbai
  else if chainId = some ChainIdPolygon then ChainIdPolygon
  else ChainIdMumbai

/-- Contract ABI / interface description (opaque to this layer). -/
structure ABI where
  id : Nat
deriving DecidableEq

/-- Wallet-connection provider / Web3 library handle (opaque to this layer). -/
structure Web3Library where
  id : Nat
deriving DecidableEq

/-- The binding of a contract handle: read-only provider or account signer. -/
inductive ProviderOrSigner
  | provider (library : Web3Library)
  | signer (library : Web3Library) (account : String)
deriving DecidableEq

/-- The ethers zero-address sentinel `AddressZero`. -/
def AddressZero : String :=
  "0x0000000000000000000000000000000000000000"

/-- `getSigner`: bind the library to an account signer. -/
def getSigner (library : Web3Library) (account : String) : ProviderOrSigner :=
  ProviderOrSigner.signer library account

/-- `getProviderOrSigner`: a truthy (present, nonempty) account gives a
signer, otherwise the read-only library itself. -/
def getProviderOrSigner (library : Web3Library) (account : Option String) :
    ProviderOrSigner :=
  match account with
  | some a => if a = "" then ProviderOrSigner.provider library else getSigner library a
  | none => ProviderOrSigner.provider library

/-- An ethers contract handle: address, interface, and binding. -/
structure ContractHandle where
  address : String
  abi : ABI
  binding : ProviderOrSigner
deriving DecidableEq

/-- `getContract`: throws (here `Except.error`) when the address fails
ethers address validation or is the zero address; otherwise constructs the
handle bound per `getProviderOrSigner`. Address validation (`isAddress`) is
an external ethers function and is passed in as `isAddr`. -/
def getContract (address : String) (abi : ABI) (library : Web3Library)
    (account : Option String) (isAddr : String → Bool) :
    Except String ContractHandle :=
  if isAddr address = false ∨ address = AddressZero then
    Except.error ("Invalid address parameter " ++ address)
  else
    Except.ok ⟨address, abi, getProviderOrSigner library account⟩

/-- Modelled from the spec: ethers address-format validation (`isAddress`,
external to this repository) — a hex address is a `0x`-prefixed string of 40
hexadecimal digits. -/
def isAddressModel (s : String) : Bool :=
  match s.data with
  | '0' :: 'x' :: rest =>
    rest.length = 40 &&
      rest.all fun c =>
        c.isDigit || (97 ≤ c.toNat && c.toNat ≤ 102) || (65 ≤ c.toNat && c.toNat ≤ 70)
  | _ => false

/-- Outcome of the `useContract` resolver: the memoized contract handle (or
`none`) together with whether a diagnostic was logged to the console. -/
structure ResolverOutcome where
  contract : Option ContractHandle
  logged : Bool
deriving DecidableEq

/-- Truthiness of an optional string: `undefined` and `""` are falsy. -/
def strTruthy : Option String → Bool
  | none => false
  | some s => s ≠ ""

/-- `useContract`: the early guard
`!address || address === AddressZero || !ABI || !library` returns `null`
without logging; otherwise `getContract` is attempted with the signer account
only when `withSignerIfPossible && account` is truthy, and a thrown error is
caught, logged (`Failed to get contract`), and turned into `null`. -/
def useContract (address : Option String) (abi : Option ABI)
    (library : Option Web3Library) (account : Option String)
    (withSignerIfPossible : Bool) (isAddr : String → Bool) : ResolverOutcome :=
  match address, abi, library with
  | some a, some i, some lib =>
    if a = "" ∨ a = AddressZero then ⟨none, false⟩
    else
      match getContract a i lib
          (if withSignerIfPossible ∧ strTruthy account then account else none)
          isAddr with
      | Except.ok c => ⟨some c, false⟩
      | Except.error _ => ⟨none, true⟩
  | _, _, _ => ⟨none, false⟩

/-- Transaction lifecycle status reported by the SDK transaction tracker. -/
inductive TransactionStatus
  | None
  | PendingSignature
  | Mining
  | Success
  | Fail
  | Exception
deriving DecidableEq

/-- Kind of a toast notification. -/
inductive ToastKind
  | error
  | loading
  | success
deriving DecidableEq

/-- A toast notification command: kind, message, the id it is issued under,
and its duration in milliseconds (`none` = persistent, no auto-dismiss). -/
structure Toast where
  kind : ToastKind
  message : String
  id : String
  duration : Option Nat
deriving DecidableEq

/-- Messages configured for one action's notifications. -/
structure NotifyConfig where
  errorMessage : String
  miningMessage : String
  successMessage : String
deriving DecidableEq

/-- Result of one run of the notification effect: whether `resetState` was
called, the toast issued (if any), and the new value of the toast ref. -/
structure NotifyResult where
  didReset : Bool
  toast : Option Toast
  toastRef : String
deriving DecidableEq

/-- Toast id assignment of the toast library: a nonempty id passed in
`options.id` is reused (replacing the toast shown under it), while the
initial empty ref yields the freshly generated id. -/
def issuedId (toastRef fresh : String) : String :=
  if toastRef = "" then fresh else toastRef

/-- Body of the `useContractNotification` effect, run once per observed
status transition: `Exception`/`Fail` reset state then (if configured) show
an error toast for 6000ms; `Mining` shows a persistent loading toast;
`Success` resets state then (if configured) shows a success toast for
6000ms; every other status does nothing. Each issued toast uses the current
toast ref as id and the ref is overwritten with the issued toast's id. -/
def notificationEffect (cfg : NotifyConfig) (status : TransactionStatus)
    (toastRef : String) (fresh : String) : NotifyResult :=
  match status with
  | TransactionStatus.Exception | TransactionStatus.Fail =>
    if cfg.errorMessage = "" then ⟨true, none, toastRef⟩
    else
      let toastId := issuedId toastRef fresh
      ⟨true, some ⟨ToastKind.error, cfg.errorMessage, toastId, some 6000⟩, toastId⟩
  | TransactionStatus.Mining =>
    if cfg.miningMessage = "" then ⟨false, none, toastRef⟩
    else
      let toastId := issuedId toastRef fresh
      ⟨false, some ⟨ToastKind.loading, cfg.miningMessage, toastId, none⟩, toastId⟩
  | TransactionStatus.Success =>
    if cfg.successMessage = "" then ⟨true, none, toastRef⟩
    else
      let toastId := issuedId toastRef fresh
      ⟨true, some ⟨ToastKind.success, cfg.successMessage, toastId, some 6000⟩, toastId⟩
  | _ => ⟨false, none, toastRef⟩

/-- Fresh toast ids generated by the toast library, one per step. -/
def freshId (n : Nat) : String :=
  "toast-" ++ toString n

/-- Run the notification effect over a sequence of observed statuses,
threading the toast ref (initially `""`) and collecting the issued toasts. -/
def runNotifications (cfg : NotifyConfig) :
    List TransactionStatus → String → Nat → List Toast
  | [], _, _ => []
  | s :: rest, ref, n =>
    let r := notificationEffect cfg s ref (freshId n)
    r.toast.toList ++ runNotifications cfg rest r.toastRef (n + 1)

/-- An ethers `BigNumberish` value as passed from JavaScript: a plain
number, a `BigNumber` object, or a numeric string. Truthiness differs per
representation: the number `0` and the string `""` are falsy, while a
`BigNumber` object is always truthy. -/
inductive BigNumberish
  | num (n : Nat)
  | big (n : Nat)
  | str (s : String)
deriving DecidableEq

/-- JavaScript falsiness of a `BigNumberish` value. -/
def bnFalsy : BigNumberish → Bool
  | BigNumberish.num n => n = 0
  | BigNumberish.big _ => false
  | BigNumberish.str s => s = ""

/-- An argument forwarded to a contract call. `parseEther` applied to a
price string is kept symbolic as `ether`; `missing` is a forwarded
JavaScript `undefined`. -/
inductive TxArg
  | bn (v : BigNumberish)
  | addr (s : String)
  | flag (b : Bool)
  | ether (price : String)
  | missing
deriving DecidableEq

/-- `parseEther(price)` on a price string, kept symbolic. -/
def parseEther (price : String) : TxArg :=
  TxArg.ether price

/-- One `send` invocation of a contract function: method name, arguments,
and the payable transaction value if one is attached. -/
structure SendCall where
  method : String
  args : List TxArg
  value : Option TxArg
deriving DecidableEq

/-- Result of invoking an action callable once: the `send` calls it made and
the transaction promise it returned (`none` when it returned `undefined`). -/
structure ActionResult where
  sends : List SendCall
  ret : Option SendCall
deriving DecidableEq

/-- `onApprove` of `useSetApprovalForAll`: guard
`!address || approved == undefined` (the loose comparison also catches
`null`), then `return approve.send(address, approved)`. -/
def onApprove (address : String) (approved : Option Bool) : ActionResult :=
  match approved with
  | none => ⟨[], none⟩
  | some b =>
    if address = "" then ⟨[], none⟩
    else
      let call : SendCall := ⟨"setApprovalForAll", [TxArg.addr address, TxArg.flag b], none⟩
      ⟨[call], some call⟩

/-- `onCreateListing` of `useCreateListing`: guard `!price || !tokenId`,
then `return createListing.send(parseEther(price), tokenId)`. -/
def onCreateListing (price : Option String) (tokenId : Option BigNumberish) :
    ActionResult :=
  match price, tokenId with
  | some p, some t =>
    if p = "" ∨ bnFalsy t then ⟨[], none⟩
    else
      let call : SendCall := ⟨"setOffer", [parseEther p, TxArg.bn t], none⟩
      ⟨[call], some call⟩
  | _, _ => ⟨[], none⟩

/-- `onRemoveListing` of `useRemoveListing`: guard `!tokenId`, then
`return removeListing.send(tokenId)`. -/
def onRemoveListing (tokenId : Option BigNumberish) : ActionResult :=
  match tokenId with
  | some t =>
    if bnFalsy t then ⟨[], none⟩
    else
      let call : SendCall := ⟨"removeOffer", [TxArg.bn t], none⟩
      ⟨[call], some call⟩
  | none => ⟨[], none⟩

/-- `onCreate` of `useCreateGen0Kitty`: guard `!gen0Price`, then
`return create.send(genes, { value: gen0Price })`. -/
def onCreate (genes : Nat) (gen0Price : Option BigNumberish) : ActionResult :=
  match gen0Price with
  | none => ⟨[], none⟩
  | some p =>
    if bnFalsy p then ⟨[], none⟩
    else
      let call : SendCall :=
        ⟨"createKittyGen0", [TxArg.bn (BigNumberish.big genes)], some (TxArg.bn p)⟩
      ⟨[call], some call⟩

/-- An optional `BigNumberish` forwarded as a call argument: an absent value
is forwarded as JavaScript `undefined`. -/
def txArgOf : Option BigNumberish → TxArg
  | none => TxArg.missing
  | some v => TxArg.bn v

/-- `onBreed` of `useBreed`: `() => breed.send(momId, dadId)` — there is no
guard, the send always happens and its promise is returned. -/
def onBreed (momId dadId : Option BigNumberish) : ActionResult :=
  let call : SendCall := ⟨"breed", [txArgOf momId, txArgOf dadId], none⟩
  ⟨[call], some call⟩

/-- `onBuy` of `useBuyKitty`: guard `!tokenId || !price`, then
`buy.send(tokenId, { value: price })` with no `return` — the promise is
discarded and the callable returns `undefined`. -/
def onBuy (price tokenId : Option BigNumberish) : ActionResult :=
  match tokenId, price with
  | some t, some p =>
    if bnFalsy t ∨ bnFalsy p then ⟨[], none⟩
    else
      let call : SendCall := ⟨"buyKitty", [TxArg.bn t], some (TxArg.bn p)⟩
      ⟨[call], none⟩
  | _, _ => ⟨[], none⟩

/-- A read-only call query passed to the SDK `useCall` hook. -/
structure CallQuery where
  contract : ContractHandle
  method : String
  args : List TxArg
deriving DecidableEq

/-- Result object of the SDK `useCall` hook: an optional value array and an
optional error. -/
structure CallRes where
  value : Option (List TxArg)
  error : Option String
deriving DecidableEq

/-- Surface of a read-value hook: the exposed value (first element of the
result array, absent on failure or while unavailable) and whether an error
message was logged. -/
structure ReadResult where
  value : Option TxArg
  logged : Bool
deriving DecidableEq

/-- The query `contract && \x7b contract, method, args \x7d` passed to
`useCall`: falsy (no query, hence no call) when the contract handle is
absent. -/
def buildCall (contract : Option ContractHandle) (method : String)
    (args : List TxArg) : Option CallQuery :=
  contract.map fun c => ⟨c, method, args⟩

/-- Common body of the read-value hooks:
`const (value, error) = useCall(query) ?? \x7b\x7d`, log `error.message`
when an error is present, and expose `value?.[0]`. The SDK `useCall` itself
is passed in as the oracle `call`. -/
def readHook (query : Option CallQuery)
    (call : Option CallQuery → Option CallRes) : ReadResult :=
  let res := (call query).getD ⟨none, none⟩
  ⟨res.value.bind List.head?, res.error.isSome⟩

/-- `useTotalSupply`: read-only `totalSupply()` on the kitty contract. -/
def useTotalSupply (contract : Option ContractHandle)
    (call : Option CallQuery → Option CallRes) : ReadResult :=
  readHook (buildCall contract "totalSupply" []) call

/-- `useGen0Price`: read-only `getGen0Price()` on the kitty contract. -/
def useGen0Price (contract : Option ContractHandle)
    (call : Option CallQuery → Option CallRes) : ReadResult :=
  readHook (buildCall contract "getGen0Price" []) call

/-- `useIsApprovedForAll`: read-only `isApprovedForAll(address, marketplace)`;
the query is `address && contract && ...`, so a falsy address also skips the
call. -/
def useIsApprovedForAll (address : Option String)
    (contract : Option ContractHandle) (marketplace : String)
    (call : Option CallQuery → Option CallRes) : ReadResult :=
  readHook
    (match address with
     | some a =>
       if a = "" then none
       else buildCall contract "isApprovedForAll" [TxArg.addr a, TxArg.addr marketplace]
     | none => none)
    call

/-! Helper lemmas about decimal digit strings. -/

theorem decStr_ne_nil (n : Nat) : decStr n ≠ [] := by
  unfold decStr
  split
  · simp
  · simp [Nat.digits_ne_nil_iff_ne_zero]
    assumption

theorem decStr_digit_lt {n d : Nat} (hd : d ∈ decStr n) : d < 10 := by
  unfold decStr at hd
  split at hd
  · simp at hd
    omega
  · exact Nat.digits_lt_base (by norm_num) (List.mem_reverse.mp hd)

theorem decStr_inj {m n : Nat} (h : decStr m = decStr n) : m = n := by
  unfold decStr at h
  split at h <;> split at h
  · omega
  · exfalso
    have hd : Nat.digits 10 n = [0] := by
      have := congrArg List.reverse h
      simpa using this.symm
    have := Nat.ofDigits_digits 10 n
    rw [hd] at this
    simp [Nat.ofDigits] at this
    omega
  · exfalso
    have hd : Nat.digits 10 m = [0] := by
      have := congrArg List.reverse h
      simpa using this
    have := Nat.ofDigits_digits 10 m
    rw [hd] at this
    simp [Nat.ofDigits] at this
    omega
  · have : Nat.digits 10 m = Nat.digits 10 n := by
      have := congrArg List.reverse h
      simpa using this
    exact Nat.digits_inj_iff.mp this

theorem ofDigits_inj_of_length {l1 l2 : List Nat} (hlen : l1.length = l2.length)
    (h1 : ∀ d ∈ l1, d < 10) (h2 : ∀ d ∈ l2, d < 10)
    (h : Nat.ofDigits 10 l1 = Nat.ofDigits 10 l2) : l1 = l2 := by
  induction l1 generalizing l2 with
  | nil =>
    cases l2 with
    | nil => rfl
    | cons b t2 => simp at hlen
  | cons a t ih =>
    cases l2 with
    | nil => simp at hlen
    | cons b t2 =>
      rw [Nat.ofDigits_cons, Nat.ofDigits_cons] at h
      have ha : a < 10 := h1 a (by simp)
      have hb : b < 10 := h2 b (by simp)
      have hab : a = b ∧ Nat.ofDigits 10 t = Nat.ofDigits 10 t2 := by omega
      have ht : t = t2 :=
        ih (by simpa using hlen) (fun d hd => h1 d (by simp [hd]))
          (fun d hd => h2 d (by simp [hd])) hab.2
      rw [hab.1, ht]

theorem foldl_append_decStr (dna : List Nat) (acc : List Nat) :
    dna.foldl (fun genes dnaValue => genes ++ decStr dnaValue) acc
      = acc ++ (dna.map decStr).flatten := by
  induction dna generalizing acc with
  | nil => simp
  | cons v t ih => simp [ih, List.append_assoc]

theorem join_decStr_ne_nil {dna : List Nat} (h : dna ≠ []) :
    (dna.map decStr).flatten ≠ [] := by
  cases dna with
  | nil => simp at h
  | cons v t => simp [decStr_ne_nil]

theorem join_decStr_length {w : Nat} : ∀ {l : List Nat},
    (∀ v ∈ l, (decStr v).length = w) → ((l.map decStr).flatten).length = l.length * w
  | [], _ => by simp
  | v :: t, h => by
    have ih := join_decStr_length (l := t) fun x hx => h x (by simp [hx])
    simp [ih, h v (by simp)]
    ring

theorem join_decStr_digit_lt {l : List Nat} {d : Nat}
    (hd : d ∈ (l.map decStr).flatten) : d < 10 := by
  rcases List.mem_flatten.mp hd with ⟨block, hblock, hdblock⟩
  rcases List.mem_map.mp hblock with ⟨v, _, rfl⟩
  exact decStr_digit_lt hdblock

theorem join_decStr_inj {w : Nat} : ∀ {l1 l2 : List Nat},
    l1.length = l2.length →
    (∀ v ∈ l1, (decStr v).length = w) → (∀ v ∈ l2, (decStr v).length = w) →
    (l1.map decStr).flatten = (l2.map decStr).flatten → l1 = l2
  | [], [], _, _, _, _ => rfl
  | [], _ :: _, hlen, _, _, _ => by simp at hlen
  | _ :: _, [], hlen, _, _, _ => by simp at hlen
  | a :: t1, b :: t2, hlen, h1, h2, h => by
    simp only [List.map_cons, List.flatten_cons] at h
    have hw : (decStr a).length = (decStr b).length := by
      rw [h1 a (by simp), h2 b (by simp)]
    have hparts := List.append_inj h hw
    have ha : a = b := decStr_inj hparts.1
    have ht : t1 = t2 :=
      join_decStr_inj (by simpa using hlen) (fun v hv => h1 v (by simp [hv]))
        (fun v hv => h2 v (by simp [hv])) hparts.2
    rw [ha, ht]

/-- C1 (amended): with a fixed field width, the encoding is injective: two
distinct DNA records with the same number of fields, every field's decimal
string having the same width `w`, encode to different genes values. -/
theorem convertDnaToGenes_fixedWidth_injective (w : Nat) (dna1 dna2 : List Nat)
    (hlen : dna1.length = dna2.length)
    (h1 : ∀ v ∈ dna1, (decStr v).length = w)
    (h2 : ∀ v ∈ dna2, (decStr v).length = w)
    (hne : dna1 ≠ dna2) :
    convertDnaToGenes dna1 ≠ convertDnaToGenes dna2 := by
  intro heq
  have hd1 : dna1 ≠ [] := by
    rintro rfl
    exact hne (List.eq_nil_of_length_eq_zero hlen.symm).symm
  have hd2 : dna2 ≠ [] := by
    rintro rfl
    exact hne (List.eq_nil_of_length_eq_zero hlen)
  simp only [convertDnaToGenes, foldl_append_decStr, List.nil_append] at heq
  rw [if_neg (join_decStr_ne_nil hd1), if_neg (join_decStr_ne_nil hd2)] at heq
  have hrev : ((dna1.map decStr).flatten).reverse = ((dna2.map decStr).flatten).reverse :=
    ofDigits_inj_of_length
      (by simp [join_decStr_length h1, join_decStr_length h2, hlen])
      (fun d hd => join_decStr_digit_lt (List.mem_reverse.mp hd))
      (fun d hd => join_decStr_digit_lt (List.mem_reverse.mp hd))
      (Option.some_inj.mp heq)
  exact hne (join_decStr_inj hlen h1 h2 (List.reverse_injective hrev))

/-- C1 (counterexample): the DNA records with field values `(1, 23)` and
`(12, 3)` are distinct, their first fields have different decimal strings,
yet `convertDnaToGenes` gives both the same genes value — the claimed
injectivity fails, exactly the collision flagged as an open question. -/
theorem convertDnaToGenes_collision :
    convertDnaToGenes [1, 23] = convertDnaToGenes [12, 3] ∧
      ([1, 23] : List Nat) ≠ [12, 3] ∧ decStr 1 ≠ decStr 12 := by
  refine ⟨?_, by simp, ?_⟩
  · simp [convertDnaToGenes, decStr, Nat.digits_def']
  · simp [decStr, Nat.digits_def']

/-- C1 (witness): the amended injectivity applied at the width-1 records
`(1, 2)` and `(3, 4)`. -/
theorem convertDnaToGenes_fixedWidth_injective_witness :
    convertDnaToGenes [1, 2] ≠ convertDnaToGenes [3, 4] :=
  convertDnaToGenes_fixedWidth_injective 1 [1, 2] [3, 4] rfl
    (by intro v hv
        simp at hv
        rcases hv with rfl | rfl <;> simp [decStr, Nat.digits_def'])
    (by intro v hv
        simp at hv
        rcases hv with rfl | rfl <;> simp [decStr, Nat.digits_def'])
    (by simp)

/-- C2: the gene encoder concatenates the fields' decimal strings in declared
field order and parses the result as an unsigned integer; the record with
fields `(1, 23, 4)` encodes to `1234`, and encoding is deterministic. -/
theorem convertDnaToGenes_concat_spec :
    convertDnaToGenes [1, 23, 4] = some 1234 ∧
      (∀ dna : List Nat, dna ≠ [] →
        convertDnaToGenes dna
          = some (Nat.ofDigits 10 ((dna.map decStr).flatten).reverse)) ∧
      (∀ dna1 dna2 : List Nat, dna1 = dna2 →
        convertDnaToGenes dna1 = convertDnaToGenes dna2) := by
  refine ⟨?_, ?_, ?_⟩
  · simp [convertDnaToGenes, decStr, Nat.digits_def', Nat.ofDigits]
  · intro dna h
    simp only [convertDnaToGenes, foldl_append_decStr, List.nil_append]
    rw [if_neg (join_decStr_ne_nil h)]
  · intro dna1 dna2 h
    rw [h]

/-- C2 (witness): the concatenation shape of the encoder evaluated at the
two-field record `(5, 6)`. -/
theorem convertDnaToGenes_concat_spec_witness :
    convertDnaToGenes [5, 6]
      = some (Nat.ofDigits 10 (([5, 6].map decStr).flatten).reverse) :=
  convertDnaToGenes_concat_spec.2.1 [5, 6] (by simp)

/-- C6: the chain resolver is total — each of the two recognized identifiers
maps to itself, and every other input, including `none` (not connected),
maps to the test-network identifier; no error is ever raised. -/
theorem useChainId_total_spec (c : Option Nat) :
    (c = some ChainIdMumbai → useChainId c = ChainIdMumbai) ∧
      (c = some ChainIdPolygon → useChainId c = ChainIdPolygon) ∧
      (c ≠ some ChainIdMumbai → c ≠ some ChainIdPolygon →
        useChainId c = ChainIdMumbai) ∧
      useChainId none = ChainIdMumbai := by
  refine ⟨?_, ?_, ?_, rfl⟩
  · rintro rfl
    simp [useChainId]
  · rintro rfl
    simp [useChainId, ChainIdMumbai, ChainIdPolygon]
  · intro h1 h2
    simp [useChainId, h1, h2]

/-- C6 (witness): an unrecognized chain id maps to the test network. -/
theorem useChainId_total_spec_witness : useChainId (some 999) = ChainIdMumbai :=
  (useChainId_total_spec (some 999)).2.2.1 (by decide) (by decide)

/-- C7 (counterexample): with a well-formed address and an ABI but no
provider library, the resolver produces nothing but logs no diagnostic, so
the claim that a diagnostic is logged on every such failing input is false. -/
theorem useContract_missing_library_not_logged :
    useContract (some "0xaaaaaaaaaaaaaaaaaaaaaaaaaaaaaaaaaaaaaaaa") (some ⟨0⟩)
        none none true isAddressModel = ⟨none, false⟩ ∧
      isAddressModel "0xaaaaaaaaaaaaaaaaaaaaaaaaaaaaaaaaaaaaaaaa" = true := by
  constructor
  · rfl
  · decide

/-- C7 (amended): the resolver always produces nothing rather than an error
on a missing/empty/zero address, missing ABI, or missing provider — silently
for the early guard — and logs a diagnostic exactly on the caught
`getContract` failure for a present, nonzero address failing address
validation; no query is ever built against an absent handle. -/
theorem useContract_guard_spec (isAddr : String → Bool) (address : Option String)
    (abi : Option ABI) (library : Option Web3Library) (account : Option String)
    (wsp : Bool) :
    (address = none ∨ address = some "" ∨ address = some AddressZero ∨
        abi = none ∨ library = none →
      useContract address abi library account wsp isAddr = ⟨none, false⟩) ∧
      (∀ a i lib, address = some a → abi = some i → library = some lib →
        a ≠ "" → a ≠ AddressZero → isAddr a = false →
        useContract address abi library account wsp isAddr = ⟨none, true⟩) ∧
      (∀ method args, buildCall none method args = none) := by
  refine ⟨?_, ?_, fun method args => rfl⟩
  · intro h
    rcases h with rfl | rfl | rfl | rfl | rfl
    · cases abi <;> cases library <;> rfl
    · cases abi <;> cases library <;> simp [useContract]
    · cases abi <;> cases library <;> simp [useContract]
    · cases address <;> cases library <;> rfl
    · cases address <;> cases abi <;> rfl
  · intro a i lib ha hi hlib hne hzero hbad
    subst ha
    subst hi
    subst hlib
    simp [useContract, hne, hzero, getContract, hbad]

/-- C7 (witness): a malformed nonempty address with ABI and provider present
yields no handle and logs the caught construction failure. -/
theorem useContract_guard_spec_witness :
    useContract (some "kitty") (some ⟨0⟩) (some ⟨0⟩) none true isAddressModel
      = ⟨none, true⟩ :=
  (useContract_guard_spec isAddressModel (some "kitty") (some ⟨0⟩) (some ⟨0⟩)
      none true).2.1 "kitty" ⟨0⟩ ⟨0⟩ rfl rfl rfl (by decide) (by decide) (by decide)

/-- C3: on `Exception` or `Fail` the adapter resets local state and, when an
error message is configured, shows an error toast for 6000ms under the
current handle; on `Mining` it shows a persistent loading toast (no
auto-dismiss) under the same handle without resetting; on `Success` it
resets and, when configured, shows a success toast for 6000ms; on `None` or
`PendingSignature` it issues no toast and does not reset. -/
theorem notificationEffect_spec (cfg : NotifyConfig) (ref fresh : String) :
    (∀ s, s = TransactionStatus.Exception ∨ s = TransactionStatus.Fail →
      (notificationEffect cfg s ref fresh).didReset = true ∧
        (cfg.errorMessage ≠ "" →
          (notificationEffect cfg s ref fresh).toast
            = some ⟨ToastKind.error, cfg.errorMessage, issuedId ref fresh, some 6000⟩) ∧
        (cfg.errorMessage = "" → (notificationEffect cfg s ref fresh).toast = none)) ∧
      ((notificationEffect cfg TransactionStatus.Mining ref fresh).didReset = false ∧
        (cfg.miningMessage ≠ "" →
          (notificationEffect cfg TransactionStatus.Mining ref fresh).toast
            = some ⟨ToastKind.loading, cfg.miningMessage, issuedId ref fresh, none⟩) ∧
        (cfg.miningMessage = "" →
          (notificationEffect cfg TransactionStatus.Mining ref fresh).toast = none)) ∧
      ((notificationEffect cfg TransactionStatus.Success ref fresh).didReset = true ∧
        (cfg.successMessage ≠ "" →
          (notificationEffect cfg TransactionStatus.Success ref fresh).toast
            = some ⟨ToastKind.success, cfg.successMessage, issuedId ref fresh, some 6000⟩) ∧
        (cfg.successMessage = "" →
          (notificationEffect cfg TransactionStatus.Success ref fresh).toast = none)) ∧
      (∀ s, s = TransactionStatus.None ∨ s = TransactionStatus.PendingSignature →
        notificationEffect cfg s ref fresh = ⟨false, none, ref⟩) := by
  refine ⟨?_, ?_, ?_, ?_⟩
  · rintro s (rfl | rfl) <;>
      by_cases h : cfg.errorMessage = "" <;>
        simp [notificationEffect, h]
  · by_cases h : cfg.miningMessage = "" <;> simp [notificationEffect, h]
  · by_cases h : cfg.successMessage = "" <;> simp [notificationEffect, h]
  · rintro s (rfl | rfl) <;> rfl

/-- C3 (witness): an `Exception` with an error message configured resets
state and shows the 6000ms error toast under the current handle. -/
theorem notificationEffect_spec_witness :
    (notificationEffect ⟨"e", "m", "s"⟩ TransactionStatus.Exception "" "t1").didReset
        = true ∧
      (notificationEffect ⟨"e", "m", "s"⟩ TransactionStatus.Exception "" "t1").toast
        = some ⟨ToastKind.error, "e", issuedId "" "t1", some 6000⟩ := by
  have h := (notificationEffect_spec ⟨"e", "m", "s"⟩ "" "t1").1
    TransactionStatus.Exception (Or.inl rfl)
  exact ⟨h.1, h.2.1 (by decide)⟩

/-- C8: every toast is issued under the current handle id (the prior ref, or
the fresh id when the ref is still empty) and the ref is overwritten with the
issued toast's id; consequently the sequence `Mining, Success` issues exactly
two toasts, the second carrying the same handle id as the first. -/
theorem notificationHandle_spec (cfg : NotifyConfig)
    (hm : cfg.miningMessage ≠ "") (hs : cfg.successMessage ≠ "") :
    (∀ s ref fresh t, (notificationEffect cfg s ref fresh).toast = some t →
        t.id = issuedId ref fresh ∧
          (notificationEffect cfg s ref fresh).toastRef = t.id) ∧
      runNotifications cfg [TransactionStatus.Mining, TransactionStatus.Success] "" 0
        = [⟨ToastKind.loading, cfg.miningMessage, freshId 0, none⟩,
           ⟨ToastKind.success, cfg.successMessage, freshId 0, some 6000⟩] := by
  constructor
  · intro s ref fresh t h
    cases s with
    | None => exact absurd h (by simp [notificationEffect])
    | PendingSignature => exact absurd h (by simp [notificationEffect])
    | Mining =>
      by_cases hc : cfg.miningMessage = ""
      · simp [notificationEffect, hc] at h
      · simp only [notificationEffect, hc, if_false, Option.some_inj] at h ⊢
        subst h
        exact ⟨rfl, rfl⟩
    | Success =>
      by_cases hc : cfg.successMessage = ""
      · simp [notificationEffect, hc] at h
      · simp only [notificationEffect, hc, if_false, Option.some_inj] at h ⊢
        subst h
        exact ⟨rfl, rfl⟩
    | Fail =>
      by_cases hc : cfg.errorMessage = ""
      · simp [notificationEffect, hc] at h
      · simp only [notificationEffect, hc, if_false, Option.some_inj] at h ⊢
        subst h
        exact ⟨rfl, rfl⟩
    | Exception =>
      by_cases hc : cfg.errorMessage = ""
      · simp [notificationEffect, hc] at h
      · simp only [notificationEffect, hc, if_false, Option.some_inj] at h ⊢
        subst h
        exact ⟨rfl, rfl⟩
  · have hfresh : freshId 0 ≠ "" := by decide
    simp [runNotifications, notificationEffect, hm, hs, issuedId, hfresh]

/-- C8 (witness): the handle invariant and the two-toast run evaluated at a
concrete configuration. -/
theorem notificationHandle_spec_witness :
    runNotifications ⟨"e", "m", "s"⟩
        [TransactionStatus.Mining, TransactionStatus.Success] "" 0
      = [⟨ToastKind.loading, "m", freshId 0, none⟩,
         ⟨ToastKind.success, "s", freshId 0, some 6000⟩] :=
  (notificationHandle_spec ⟨"e", "m", "s"⟩ (by decide) (by decide)).2

/-- C9: each read-value hook passes no query when the contract handle is
unavailable (so the SDK performs no call) and surfaces no value; when the
call fails it logs and surfaces absence rather than throwing; when it
succeeds it exposes the first element of the result array. -/
theorem readHooks_spec (call : Option CallQuery → Option CallRes)
    (hnone : call none = none) :
    (useTotalSupply none call = ⟨none, false⟩ ∧
        useGen0Price none call = ⟨none, false⟩ ∧
        (∀ a mk, useIsApprovedForAll a none mk call = ⟨none, false⟩)) ∧
      (∀ c e, call (some ⟨c, "totalSupply", []⟩) = some ⟨none, some e⟩ →
        useTotalSupply (some c) call = ⟨none, true⟩) ∧
      (∀ c vs, call (some ⟨c, "totalSupply", []⟩) = some ⟨some vs, none⟩ →
        useTotalSupply (some c) call = ⟨vs.head?, false⟩) ∧
      (∀ c e, call (some ⟨c, "getGen0Price", []⟩) = some ⟨none, some e⟩ →
        useGen0Price (some c) call = ⟨none, true⟩) ∧
      (∀ c vs, call (some ⟨c, "getGen0Price", []⟩) = some ⟨some vs, none⟩ →
        useGen0Price (some c) call = ⟨vs.head?, false⟩) ∧
      (∀ c a mk e, a ≠ "" →
        call (some ⟨c, "isApprovedForAll", [TxArg.addr a, TxArg.addr mk]⟩)
            = some ⟨none, some e⟩ →
        useIsApprovedForAll (some a) (some c) mk call = ⟨none, true⟩) ∧
      (∀ c a mk vs, a ≠ "" →
        call (some ⟨c, "isApprovedForAll", [TxArg.addr a, TxArg.addr mk]⟩)
            = some ⟨some vs, none⟩ →
        useIsApprovedForAll (some a) (some c) mk call = ⟨vs.head?, false⟩) ∧
      (∀ c mk, useIsApprovedForAll none c mk call = ⟨none, false⟩ ∧
        useIsApprovedForAll (some "") c mk call = ⟨none, false⟩) := by
  refine ⟨⟨?_, ?_, ?_⟩, ?_, ?_, ?_, ?_, ?_, ?_, ?_⟩
  · simp [useTotalSupply, readHook, buildCall, hnone]
  · simp [useGen0Price, readHook, buildCall, hnone]
  · intro a mk
    cases a with
    | none => simp [useIsApprovedForAll, readHook, buildCall, hnone]
    | some s =>
      by_cases hs : s = "" <;>
        simp [useIsApprovedForAll, readHook, buildCall, hnone, hs]
  · intro c e h
    simp [useTotalSupply, readHook, buildCall, h]
  · intro c vs h
    simp [useTotalSupply, readHook, buildCall, h]
  · intro c e h
    simp [useGen0Price, readHook, buildCall, h]
  · intro c vs h
    simp [useGen0Price, readHook, buildCall, h]
  · intro c a mk e ha h
    simp [useIsApprovedForAll, readHook, buildCall, ha, h]
  · intro c a mk vs ha h
    simp [useIsApprovedForAll, readHook, buildCall, ha, h]
  · intro c mk
    constructor
    · simp [useIsApprovedForAll, readHook, hnone]
    · simp [useIsApprovedForAll, readHook, hnone]

/-- C9 (witness): a concrete oracle answering the total-supply query with a
one-element array makes the hook expose that first value. -/
theorem readHooks_spec_witness :
    useTotalSupply (some ⟨"0xa", ⟨0⟩, ProviderOrSigner.provider ⟨0⟩⟩)
        (fun q =>
          match q with
          | none => none
          | some _ => some ⟨some [TxArg.bn (BigNumberish.big 9)], none⟩)
      = ⟨some (TxArg.bn (BigNumberish.big 9)), false⟩ :=
  (readHooks_spec
      (fun q =>
        match q with
        | none => none
        | some _ => some ⟨some [TxArg.bn (BigNumberish.big 9)], none⟩)
      rfl).2.2.1 ⟨"0xa", ⟨0⟩, ProviderOrSigner.provider ⟨0⟩⟩
    [TxArg.bn (BigNumberish.big 9)] rfl

/-- C4 (counterexample): `onBreed` validates nothing — with the mom id
absent it still performs a send, so the claim that every action hook guards
its required arguments and stays inert when one is absent is false. -/
theorem onBreed_no_guard :
    (onBreed none (some (BigNumberish.num 2))).sends ≠ [] := by
  simp [onBreed]

/-- C4 (amended): every action callable except `onBreed` guards its required
arguments — with any required argument absent (or falsy) it performs no send
and returns nothing, surfacing no error; `onBreed` alone forwards
unconditionally. -/
theorem actionGuards_spec (address : String) (genes : Nat) :
    (onApprove address none = ⟨[], none⟩ ∧
        (∀ b, address = "" → onApprove address (some b) = ⟨[], none⟩)) ∧
      (∀ p t, onCreateListing none t = ⟨[], none⟩ ∧
        onCreateListing p none = ⟨[], none⟩) ∧
      onRemoveListing none = ⟨[], none⟩ ∧
      onCreate genes none = ⟨[], none⟩ ∧
      (∀ p t, onBuy none t = ⟨[], none⟩ ∧ onBuy p none = ⟨[], none⟩) ∧
      (∀ m d, (onBreed m d).sends.length = 1) := by
  refine ⟨⟨rfl, ?_⟩, ?_, rfl, rfl, ?_, fun m d => rfl⟩
  · intro b h
    simp [onApprove, h]
  · intro p t
    constructor
    · cases t <;> rfl
    · cases p <;> rfl
  · intro p t
    constructor
    · cases t <;> rfl
    · rfl

/-- C4 (witness): the guards evaluated at a concrete marketplace address. -/
theorem actionGuards_spec_witness :
    onApprove "" (some true) = ⟨[], none⟩ :=
  ((actionGuards_spec "" 0).1.2) true rfl

/-- C5 (counterexample): with price and token id both present and truthy,
`onBuy` performs the send but returns `undefined` instead of the transaction
promise, so the claim that every action callable returns the promise fails. -/
theorem onBuy_discards_promise :
    (onBuy (some (BigNumberish.big 5)) (some (BigNumberish.num 3))).sends.length
        = 1 ∧
      (onBuy (some (BigNumberish.big 5)) (some (BigNumberish.num 3))).ret
        = none := by
  constructor <;> rfl

/-- C5 (amended): with all required arguments present and truthy, each action
callable forwards to `send` exactly once per invocation; every callable
except `onBuy` returns the resulting transaction promise, while `onBuy`
discards it and returns nothing. -/
theorem actionSendOnce_spec (address p : String) (b : Bool)
    (t mom dad pr g0 : BigNumberish) (genes : Nat)
    (haddr : address ≠ "") (hp : p ≠ "") (ht : bnFalsy t = false)
    (hpr : bnFalsy pr = false) (hg0 : bnFalsy g0 = false) :
    ((onApprove address (some b)).sends.length = 1 ∧
        (onApprove address (some b)).ret = (onApprove address (some b)).sends.head?) ∧
      ((onCreateListing (some p) (some t)).sends.length = 1 ∧
        (onCreateListing (some p) (some t)).ret
          = (onCreateListing (some p) (some t)).sends.head?) ∧
      ((onRemoveListing (some t)).sends.length = 1 ∧
        (onRemoveListing (some t)).ret = (onRemoveListing (some t)).sends.head?) ∧
      ((onCreate genes (some g0)).sends.length = 1 ∧
        (onCreate genes (some g0)).ret = (onCreate genes (some g0)).sends.head?) ∧
      ((onBreed (some mom) (some dad)).sends.length = 1 ∧
        (onBreed (some mom) (some dad)).ret
          = (onBreed (some mom) (some dad)).sends.head?) ∧
      ((onBuy (some pr) (some t)).sends.length = 1 ∧
        (onBuy (some pr) (some t)).ret = none) := by
  refine ⟨?_, ?_, ?_, ?_, ⟨rfl, rfl⟩, ?_⟩
  · simp [onApprove, haddr]
  · simp [onCreateListing, hp, ht]
  · simp [onRemoveListing, ht]
  · simp [onCreate, hg0]
  · simp [onBuy, ht, hpr]

/-- C5 (witness): the send-once contract evaluated at concrete arguments. -/
theorem actionSendOnce_spec_witness :
    (onBuy (some (BigNumberish.big 7)) (some (BigNumberish.num 4))).sends.length
        = 1 ∧
      (onBuy (some (BigNumberish.big 7)) (some (BigNumberish.num 4))).ret
        = none :=
  (actionSendOnce_spec "0xm" "1" true (BigNumberish.num 4) (BigNumberish.num 1)
      (BigNumberish.num 2) (BigNumberish.big 7) (BigNumberish.big 3) 0
      (by decide) (by decide) rfl rfl rfl).2.2.2.2.2

/-- C10: the token id `0` passed as a plain number is falsy, so `onBuy`,
`onRemoveListing` and `onCreateListing` treat it as absent and stay inert
even with every other argument present and truthy. -/
theorem tokenIdZero_inert (p : String) (pr : BigNumberish)
    (hp : p ≠ "") (hpr : bnFalsy pr = false) :
    onBuy (some pr) (some (BigNumberish.num 0)) = ⟨[], none⟩ ∧
      onRemoveListing (some (BigNumberish.num 0)) = ⟨[], none⟩ ∧
      onCreateListing (some p) (some (BigNumberish.num 0)) = ⟨[], none⟩ := by
  refine ⟨?_, rfl, ?_⟩
  · simp [onBuy, bnFalsy]
  · simp [onCreateListing, bnFalsy]

/-- C10 (witness): token id `0` cannot be bought, listed or delisted even
with a concrete truthy price. -/
theorem tokenIdZero_inert_witness :
    onBuy (some (BigNumberish.big 5)) (some (BigNumberish.num 0)) = ⟨[], none⟩ :=
  (tokenIdZero_inert "1" (BigNumberish.big 5) (by decide) rfl).1

end Kitties
